import Mathlib

/-!
Shallow embedding of the `cellularproxy` repository (an authenticated SOCKS5
proxy that binds outbound sockets to named network devices), together with
proofs checking the natural-language specification against the code.

Strings from the Rust source are modelled as `List Char`; raw byte vectors
(`Vec<u8>`) as `List Nat`; machine integers as `Nat`.  Every fallible I/O
step (socket syscalls, stream reads/writes, HTTP requests) is resolved by an
explicit *world* record supplying each step's outcome, and every externally
visible action is recorded in an event trace, so that ordering claims become
statements about the produced trace.
-/

deriving instance DecidableEq for Except

namespace CellularProxy

/-- Opaque OS-level I/O error (models Rust `io::Error`,
`std::io::Error::last_os_error()` etc.). -/
structure IOErr where
  code : Nat
deriving DecidableEq, Repr

/-! ### String helpers (models of the Rust std string operations used) -/

/-- Model of Rust `str::find` for a pattern `sep`, on explicit char lists:
first index `i` such that `sep` is a prefix of `s` dropped by `i`.
(For ASCII patterns inside valid UTF-8, Rust byte indices and char indices
of the first occurrence coincide, since an ASCII byte never occurs inside a
multi-byte encoded char.) -/
def findSubstrAux (sep : List Char) : List Char → Nat → Option Nat
  | [], i => if sep.isEmpty then some i else none
  | c :: rest, i =>
    if sep.isPrefixOf (c :: rest) then some i else findSubstrAux sep rest (i + 1)

/-- First occurrence index of `sep` in `s`, if any. -/
def findSubstr (sep s : List Char) : Option Nat :=
  findSubstrAux sep s 0

/-- Model of Rust `str::contains` for a string pattern. -/
def containsSubstr (s sep : List Char) : Bool :=
  (findSubstr sep s).isSome

/-- Model of Rust `char::to_ascii_lowercase` (ASCII-only lowering). -/
def asciiLower (c : Char) : Char :=
  if 65 ≤ c.toNat ∧ c.toNat ≤ 90 then Char.ofNat (c.toNat + 32) else c

/-- Model of Rust `str::starts_with`. -/
def startsWith (s pre : List Char) : Bool :=
  pre.isPrefixOf s

/-! ### `tcp.rs`: OS fingerprints and the interface-bound connect -/

/-- `tcp.rs`: `pub enum OsFingerprint { Windows, Linux, Android }`.
(The source enum has exactly these three variants.) -/
inductive OsFingerprint where
  | windows
  | linux
  | android
deriving DecidableEq, Repr

/-- `tcp.rs` `apply_fingerprint_opts`: the `(ttl, buf)` pair chosen by the
`match fp` at the head of the function: Windows `(128, 64*1024)`,
Linux `(64, 29_200)`, Android `(64, 44_800)`. -/
def fingerprintParams : OsFingerprint → Nat × Nat
  | .windows => (128, 64 * 1024)
  | .linux => (64, 29200)
  | .android => (64, 44800)

/-- A literal socket address (Rust `SocketAddr`): IPv4 or IPv6 with port. -/
inductive SockAddrIp where
  | v4 (a b c d : Nat) (port : Nat)
  | v6 (segs : List Nat) (port : Nat)
deriving DecidableEq, Repr

/-- Whether the address selects the IPv6 family (`TcpSocket::new_v6`). -/
def SockAddrIp.isV6 : SockAddrIp → Bool
  | .v4 _ _ _ _ _ => false
  | .v6 _ _ => true

/-- Events emitted by `tcp_connect_with_fingerprint`, in the order the
corresponding syscalls are issued on the socket. -/
inductive TcpEvent where
  | newSocket (v6 : Bool)
  | setNodelay
  | setKeepalive
  | bindToDevice (ifname : List Char)
  | setTTL (ttl : Nat)
  | setSndbuf (n : Nat)
  | setRcvbuf (n : Nat)
  | connect (remote : SockAddrIp)
deriving DecidableEq, Repr

/-- Error produced by `tcp_connect_with_fingerprint`: an OS error from a
syscall, or the `CString::new` interior-NUL error (both are `io::Error`
in the source). -/
inductive TcpErr where
  | os (e : IOErr)
  | nul
deriving DecidableEq, Repr

/-- Outcomes of each fallible step inside `tcp_connect_with_fingerprint`
(the world: what the OS would answer). -/
structure TcpWorld where
  create : Except IOErr Unit
  nodelay : Except IOErr Unit
  keepalive : Except IOErr Unit
  bind : Except IOErr Unit
  ttl : Except IOErr Unit
  sndbuf : Except IOErr Unit
  rcvbuf : Except IOErr Unit
  connect : Except IOErr Unit
deriving Repr

/-- `tcp.rs` `apply_fingerprint_opts(fd, fp)`: sets `IP_TTL` on
`IPPROTO_IP`, then `SO_SNDBUF`, then `SO_RCVBUF` on `SOL_SOCKET`, with the
values from `fingerprintParams`; the first failing `setsockopt` aborts with
`last_os_error()`. Returns the result plus the trace of syscalls issued. -/
def apply_fingerprint_opts (w : TcpWorld) (fp : OsFingerprint) :
    Except TcpErr Unit × List TcpEvent :=
  let p := fingerprintParams fp
  match w.ttl with
  | .error e => (.error (.os e), [.setTTL p.1])
  | .ok _ =>
    match w.sndbuf with
    | .error e => (.error (.os e), [.setTTL p.1, .setSndbuf p.2])
    | .ok _ =>
      match w.rcvbuf with
      | .error e => (.error (.os e), [.setTTL p.1, .setSndbuf p.2, .setRcvbuf p.2])
      | .ok _ => (.ok (), [.setTTL p.1, .setSndbuf p.2, .setRcvbuf p.2])

/-- `tcp.rs` `tcp_connect_with_fingerprint(remote_addr, ifname, fp)`:
1) create a v4/v6 socket from the address family; set `TCP_NODELAY` and
keep-alive; 2) `CString::new(ifname)` (fails on an interior NUL byte), then
`setsockopt(SOL_SOCKET, SO_BINDTODEVICE, ifname)`, returning
`last_os_error()` on failure; 3) `apply_fingerprint_opts`; 4) `connect`.
The returned stream is modelled as `Unit`; the second component is the
trace of syscalls issued. -/
def tcp_connect_with_fingerprint (w : TcpWorld) (remote : SockAddrIp)
    (ifname : List Char) (fp : OsFingerprint) :
    Except TcpErr Unit × List TcpEvent :=
  let t0 : List TcpEvent := [.newSocket remote.isV6]
  match w.create with
  | .error e => (.error (.os e), t0)
  | .ok _ =>
    let t1 := t0 ++ [.setNodelay]
    match w.nodelay with
    | .error e => (.error (.os e), t1)
    | .ok _ =>
      let t2 := t1 ++ [.setKeepalive]
      match w.keepalive with
      | .error e => (.error (.os e), t2)
      | .ok _ =>
        if (Char.ofNat 0) ∈ ifname then (.error .nul, t2)
        else
          let t3 := t2 ++ [.bindToDevice ifname]
          match w.bind with
          | .error e => (.error (.os e), t3)
          | .ok _ =>
            let fpr := apply_fingerprint_opts w fp
            match fpr.1 with
            | .error e => (.error e, t3 ++ fpr.2)
            | .ok _ =>
              (match w.connect with
               | .error e => .error (.os e)
               | .ok _ => .ok (), t3 ++ fpr.2 ++ [.connect remote])

/-! ### `username.rs`: the username/fingerprint parser -/

/-- The separator literal `"-fingerprint-"` from `username.rs`. -/
def fingerprintSep : List Char := "-fingerprint-".toList

/-- `username.rs` `parse_username(input, fingerprint)`: find the first
occurrence of `"-fingerprint-"`; if absent return `(input, fingerprint)`;
otherwise split there, lowercase the suffix and match it against
`windows` / `linux` / `android`; an unknown suffix is an
`InvalidFingerprint` error carrying the lowercased suffix. -/
def parse_username (input : List Char) (fingerprint : OsFingerprint) :
    Except (List Char) (List Char × OsFingerprint) :=
  match findSubstr fingerprintSep input with
  | none => .ok (input, fingerprint)
  | some idx =>
    let name := input.take idx
    let val := (input.drop idx).drop fingerprintSep.length
    let low := val.map asciiLower
    if low = "windows".toList then .ok (name, .windows)
    else if low = "linux".toList then .ok (name, .linux)
    else if low = "android".toList then .ok (name, .android)
    else .error low

/-- `main.rs`: `const DEFAULT_FINGERPRINT: OsFingerprint = OsFingerprint::Windows;` -/
def defaultFingerprint : OsFingerprint := .windows

/-- The complete syscall trace of a fully successful
`tcp_connect_with_fingerprint` run. -/
def tcpFullTrace (remote : SockAddrIp) (ifname : List Char) (fp : OsFingerprint) :
    List TcpEvent :=
  [.newSocket remote.isV6, .setNodelay, .setKeepalive, .bindToDevice ifname,
   .setTTL (fingerprintParams fp).1, .setSndbuf (fingerprintParams fp).2,
   .setRcvbuf (fingerprintParams fp).2, .connect remote]

/-- A `connect` syscall appears in the binder's trace only when every earlier
step succeeded, in which case the trace is exactly `tcpFullTrace` (so the
connect is initiated last) and the connect target is `remote`. -/
theorem tcp_connect_mem_trace (w : TcpWorld) (remote : SockAddrIp)
    (ifname : List Char) (fp : OsFingerprint) (a : SockAddrIp)
    (h : TcpEvent.connect a ∈ (tcp_connect_with_fingerprint w remote ifname fp).2) :
    (tcp_connect_with_fingerprint w remote ifname fp).2 = tcpFullTrace remote ifname fp ∧
      a = remote ∧ w.bind = .ok () := by
  unfold tcp_connect_with_fingerprint apply_fingerprint_opts at *
  by_cases hz : (Char.ofNat 0) ∈ ifname <;>
    rcases w with ⟨c, n, k, b, t, s, r, co⟩ <;>
    rcases c with e | u <;> rcases n with e1 | u1 <;> rcases k with e2 | u2 <;>
    rcases b with e3 | u3 <;> rcases t with e4 | u4 <;> rcases s with e5 | u5 <;>
    rcases r with e6 | u6 <;>
    simp_all [tcpFullTrace]

/-- If the binder returns `.ok` then every step (including the final
`connect`) succeeded and the trace is exactly `tcpFullTrace`. -/
theorem tcp_ok_trace (w : TcpWorld) (remote : SockAddrIp)
    (ifname : List Char) (fp : OsFingerprint)
    (h : (tcp_connect_with_fingerprint w remote ifname fp).1 = .ok ()) :
    (tcp_connect_with_fingerprint w remote ifname fp).2 = tcpFullTrace remote ifname fp ∧
      w.connect = .ok () := by
  unfold tcp_connect_with_fingerprint apply_fingerprint_opts at *
  by_cases hz : (Char.ofNat 0) ∈ ifname <;>
    rcases w with ⟨c, n, k, b, t, s, r, co⟩ <;>
    rcases c with e | u <;> rcases n with e1 | u1 <;> rcases k with e2 | u2 <;>
    rcases b with e3 | u3 <;> rcases t with e4 | u4 <;> rcases s with e5 | u5 <;>
    rcases r with e6 | u6 <;> rcases co with e7 | u7 <;>
    simp_all [tcpFullTrace]

/-- C1: with socket creation and the `TCP_NODELAY`/keep-alive steps
succeeding and a NUL-free device name, (i) a failing `SO_BINDTODEVICE`
`setsockopt` makes `tcp_connect_with_fingerprint` return that OS error and
no `connect` is ever initiated (no fall-back to the default route); (ii) if
the bind succeeds, any run that initiates the `connect` has the exact
syscall trace in which `IP_TTL`, `SO_SNDBUF` and `SO_RCVBUF` are set to the
profile's `(ttl, buffer)` values before the `connect`. -/
theorem c1_interface_binder_order (w : TcpWorld) (remote : SockAddrIp)
    (ifname : List Char) (fp : OsFingerprint)
    (hc : w.create = .ok ()) (hn : w.nodelay = .ok ()) (hk : w.keepalive = .ok ())
    (hnul : (Char.ofNat 0) ∉ ifname) :
    (∀ e, w.bind = .error e →
      (tcp_connect_with_fingerprint w remote ifname fp).1 = .error (.os e) ∧
      ∀ a, TcpEvent.connect a ∉ (tcp_connect_with_fingerprint w remote ifname fp).2) ∧
    (w.bind = .ok () →
      ∀ a, TcpEvent.connect a ∈ (tcp_connect_with_fingerprint w remote ifname fp).2 →
        (tcp_connect_with_fingerprint w remote ifname fp).2 =
          [.newSocket remote.isV6, .setNodelay, .setKeepalive, .bindToDevice ifname,
           .setTTL (fingerprintParams fp).1, .setSndbuf (fingerprintParams fp).2,
           .setRcvbuf (fingerprintParams fp).2, .connect remote]) := by
  constructor
  · intro e hb
    unfold tcp_connect_with_fingerprint
    rw [hc, hn, hk, hb]
    simp [hnul]
  · intro _ a ha
    have h := tcp_connect_mem_trace w remote ifname fp a ha
    rw [h.1]
    rfl

/-- All-success world for the binder. -/
def tcpWorldOk : TcpWorld :=
  ⟨.ok (), .ok (), .ok (), .ok (), .ok (), .ok (), .ok (), .ok ()⟩

/-- Binder world whose `SO_BINDTODEVICE` step fails with OS error 13
(`EACCES`); everything before it succeeds. -/
def tcpWorldBindFail : TcpWorld :=
  ⟨.ok (), .ok (), .ok (), .error ⟨13⟩, .ok (), .ok (), .ok (), .ok ()⟩

/-- Example remote address `93.184.216.34:80`. -/
def addrEx : SockAddrIp := .v4 93 184 216 34 80

/-- Witness for C1: at device `wwan0` with a failing bind (EACCES) the
binder returns `EACCES` and the trace holds no connect; with the all-ok
world the trace is the full ordered list for the Linux profile. -/
theorem c1_interface_binder_order_witness :
    ((tcp_connect_with_fingerprint tcpWorldBindFail addrEx "wwan0".toList .linux).1 =
        .error (.os ⟨13⟩) ∧
      ∀ a, TcpEvent.connect a ∉
        (tcp_connect_with_fingerprint tcpWorldBindFail addrEx "wwan0".toList .linux).2) ∧
    (tcp_connect_with_fingerprint tcpWorldOk addrEx "wwan0".toList .linux).2 =
      [.newSocket false, .setNodelay, .setKeepalive, .bindToDevice "wwan0".toList,
       .setTTL 64, .setSndbuf 29200, .setRcvbuf 29200, .connect addrEx] := by
  constructor
  · exact (c1_interface_binder_order tcpWorldBindFail addrEx "wwan0".toList .linux
      rfl rfl rfl (by decide)).1 ⟨13⟩ rfl
  · have := (c1_interface_binder_order tcpWorldOk addrEx "wwan0".toList .linux
      rfl rfl rfl (by decide)).2 rfl addrEx (by decide)
    exact this.trans (by rfl)

/-- C3 counterexample: the claim admits the tag `macos`, but the source
`OsFingerprint` enum has only `Windows`, `Linux`, `Android`, and
`parse_username` rejects `macos` with an `InvalidFingerprint` error
(which in turn rejects authentication), so the parser does not succeed
on `"u-fingerprint-macos"` as the claim states. -/
theorem c3_counterexample :
    parse_username "u-fingerprint-macos".toList .windows = .error "macos".toList := by
  rfl

/-- C3 (amended): for a username `u ++ "-fingerprint-" ++ t` in which the
separator's first occurrence is the one written between `u` and `t`, the
parser returns `(u, profile)` with `u` in its original case when `t` is
`windows`/`linux`/`android` ASCII case-insensitively, and otherwise fails
with a parse error carrying the lowercased tag. -/
theorem c3_username_tags (u t : List Char) (fp0 : OsFingerprint)
    (hfirst : findSubstr fingerprintSep (u ++ fingerprintSep ++ t) = some u.length) :
    parse_username (u ++ fingerprintSep ++ t) fp0 =
      (if t.map asciiLower = "windows".toList then .ok (u, .windows)
       else if t.map asciiLower = "linux".toList then .ok (u, .linux)
       else if t.map asciiLower = "android".toList then .ok (u, .android)
       else .error (t.map asciiLower)) := by
  unfold parse_username
  rw [hfirst]
  have htake : (u ++ fingerprintSep ++ t).take u.length = u := by
    rw [List.append_assoc, List.take_left]
  have hdrop : ((u ++ fingerprintSep ++ t).drop u.length).drop fingerprintSep.length = t := by
    rw [List.append_assoc, List.drop_left, List.drop_left]
  dsimp only
  rw [htake, hdrop]

/-- Witness for C3's amended theorem: `modem-fingerprint-LINUX` parses to
`("modem", Linux)` (case-insensitive tag, original-case user), and
`modem-fingerprint-ios` is rejected with the lowercased tag `ios`. -/
theorem c3_username_tags_witness :
    parse_username ("modem".toList ++ fingerprintSep ++ "LINUX".toList) .windows =
        .ok ("modem".toList, .linux) ∧
      parse_username ("modem".toList ++ fingerprintSep ++ "ios".toList) .windows =
        .error "ios".toList := by
  constructor
  · exact (c3_username_tags "modem".toList "LINUX".toList .windows (by decide)).trans
      (by rfl)
  · exact (c3_username_tags "modem".toList "ios".toList .windows (by decide)).trans
      (by rfl)

/-- C9: the process-wide default fingerprint (`main.rs`
`DEFAULT_FINGERPRINT`) is Windows: a username with no `-fingerprint-`
separator parses to itself with the Windows profile, and the binder's
fingerprint step for Windows sets TTL 128 and 65536-byte send/receive
buffers. -/
theorem c9_default_windows (input : List Char) (w : TcpWorld)
    (h : findSubstr fingerprintSep input = none)
    (ht : w.ttl = .ok ()) (hs : w.sndbuf = .ok ()) (hr : w.rcvbuf = .ok ()) :
    parse_username input defaultFingerprint = .ok (input, .windows) ∧
      (apply_fingerprint_opts w .windows).2 =
        [.setTTL 128, .setSndbuf 65536, .setRcvbuf 65536] := by
  constructor
  · unfold parse_username
    rw [h]
    rfl
  · unfold apply_fingerprint_opts
    rw [ht, hs, hr]
    rfl

/-- Witness for C9 at the username `modem` and the all-ok binder world. -/
theorem c9_default_windows_witness :
    parse_username "modem".toList defaultFingerprint = .ok ("modem".toList, .windows) ∧
      (apply_fingerprint_opts tcpWorldOk .windows).2 =
        [.setTTL 128, .setSndbuf 65536, .setRcvbuf 65536] :=
  c9_default_windows "modem".toList tcpWorldOk (by decide) rfl rfl rfl

/-! ### `socks5.rs`: the per-connection session -/

/-- UTF-8 continuation byte test (`0x80..=0xBF`). -/
def isUtf8Cont (b : Nat) : Bool :=
  decide (0x80 ≤ b ∧ b ≤ 0xBF)

/-- Model of Rust `String::from_utf8` on a byte vector: strict UTF-8
decoding (rejecting overlong forms, surrogate code points and values above
`0x10FFFF`), `none` on any invalid byte sequence. -/
def utf8Decode : List Nat → Option (List Char)
  | [] => some []
  | b :: rest =>
    if b ≤ 0x7F then
      (utf8Decode rest).map (fun cs => Char.ofNat b :: cs)
    else if b < 0xC2 then none
    else if b ≤ 0xDF then
      match rest with
      | b1 :: rest1 =>
        if isUtf8Cont b1 then
          (utf8Decode rest1).map (fun cs =>
            Char.ofNat ((b - 0xC0) * 0x40 + (b1 - 0x80)) :: cs)
        else none
      | [] => none
    else if b ≤ 0xEF then
      match rest with
      | b1 :: b2 :: rest2 =>
        if (if b = 0xE0 then decide (0xA0 ≤ b1 ∧ b1 ≤ 0xBF)
            else if b = 0xED then decide (0x80 ≤ b1 ∧ b1 ≤ 0x9F)
            else isUtf8Cont b1) && isUtf8Cont b2 then
          (utf8Decode rest2).map (fun cs =>
            Char.ofNat ((b - 0xE0) * 0x1000 + (b1 - 0x80) * 0x40 + (b2 - 0x80)) :: cs)
        else none
      | _ => none
    else if b ≤ 0xF4 then
      match rest with
      | b1 :: b2 :: b3 :: rest3 =>
        if (if b = 0xF0 then decide (0x90 ≤ b1 ∧ b1 ≤ 0xBF)
            else if b = 0xF4 then decide (0x80 ≤ b1 ∧ b1 ≤ 0x8F)
            else isUtf8Cont b1) && isUtf8Cont b2 && isUtf8Cont b3 then
          (utf8Decode rest3).map (fun cs =>
            Char.ofNat ((b - 0xF0) * 0x40000 + (b1 - 0x80) * 0x1000 +
              (b2 - 0x80) * 0x40 + (b3 - 0x80)) :: cs)
        else none
      | _ => none
    else none

/-- ASCII bytes of a char list (for building concrete credential vectors). -/
def asciiBytes (s : List Char) : List Nat :=
  s.map Char.toNat

/-- SOCKS5 request address (`socks5_proto::Address`): a literal socket
address or a domain name with port. -/
inductive Socks5Address where
  | ip (sa : SockAddrIp)
  | domain (name : List Char) (port : Nat)
deriving DecidableEq, Repr

/-- One decimal octet of an IPv4 literal, per Rust
`Ipv4Addr: FromStr`: non-empty digits, no leading zero, value ≤ 255. -/
def parseOctet (s : List Char) : Option Nat :=
  match s with
  | [] => none
  | c :: cs =>
    if (c :: cs).all Char.isDigit = false then none
    else if c = '0' ∧ cs ≠ [] then none
    else
      let v := (c :: cs).foldl (fun acc d => acc * 10 + (d.toNat - 48)) 0
      if v ≤ 255 then some v else none

/-- Rust `Ipv4Addr: FromStr`: exactly four octets separated by dots. -/
def parseIPv4 (s : List Char) : Option (Nat × Nat × Nat × Nat) :=
  match s.splitOn '.' with
  | [a, b, c, d] =>
    match parseOctet a, parseOctet b, parseOctet c, parseOctet d with
    | some x, some y, some z, some v => some (x, y, z, v)
    | _, _, _, _ => none
  | _ => none

/-- `socks5.rs` `server_socks5_connect` step 1:
`requested_addr.to_string().parse::<SocketAddr>()`.  A literal address
round-trips through `Display`/`FromStr`; a domain-name address yields the
string `"<name>:<port>"`, which parses as a socket address exactly when the
name is an IP literal (modelled for IPv4 literals; a domain that is not an
IP literal fails, which is the case the claims exercise). -/
def addrParse : Socks5Address → Except Unit SockAddrIp
  | .ip sa => .ok sa
  | .domain name port =>
    match parseIPv4 name with
    | some (a, b, c, d) => .ok (.v4 a b c d port)
    | none => .error ()

/-- `socks5_proto::Command` (`Connect`, `Bind`, `Associate`). -/
inductive Socks5Command where
  | connect
  | bind
  | associate
deriving DecidableEq, Repr

/-- The `socks5_proto::Reply` variants used by `socks5.rs`. -/
inductive Socks5Reply where
  | succeeded
  | connectionNotAllowed
  | commandNotSupported
deriving DecidableEq, Repr

/-- Externally visible actions of a session, in order: handshake response
(method byte `0x02` or `0xFF`), RFC 1929 auth response (`true` = status
`0x00`, `false` = status `0x01`), a SOCKS5 `Response` record, a syscall on
the outbound socket, or entry into the `copy_bidirectional` relay. -/
inductive SEvent where
  | writeHandshakeResp (method : Nat)
  | writeAuthResp (ok : Bool)
  | writeResponse (r : Socks5Reply) (addr : Socks5Address)
  | tcp (e : TcpEvent)
  | relayed
deriving DecidableEq, Repr

/-- `socks5.rs` `Socks5Error`, with each variant's carried data. -/
inductive SErr where
  | handshake (e : IOErr)
  | unsupportedMethod
  | passwordRequest (e : IOErr)
  | authenticationFailed (user : List Char)
  | passwordResponseWrite (e : IOErr)
  | requestRead (e : IOErr)
  | invalidAddress
  | connect (e : TcpErr)
  | responseWrite (e : IOErr)
  | unsupportedCommand (c : Socks5Command)
  | commandNotAllowed (c : Socks5Command)
  | utf8
deriving DecidableEq, Repr

/-- Outcomes of the fallible steps of one session (what the client and the
OS would answer): the read greeting, the handshake-response write, the read
credential record (raw byte vectors), the auth-response write, the read
command record, `Response` writes, the binder's world, and the
`copy_bidirectional` outcome. -/
structure SWorld where
  hsReq : Except IOErr (List Nat)
  wHs : Except IOErr Unit
  pwdReq : Except IOErr (List Nat × List Nat)
  wAuth : Except IOErr Unit
  cmdReq : Except IOErr (Socks5Command × Socks5Address)
  wResp : Except IOErr Unit
  tcpw : TcpWorld
  relay : Except IOErr (Nat × Nat)
deriving Repr

/-- The `Socks5` struct fields a session reads: the process-wide default
fingerprint and the interface map (`HashMap<String, String>` modelled as an
association list from identifier to device name). -/
structure Socks5Cfg where
  fingerprint : OsFingerprint
  ifaceMap : List (List Char × List Char)

/-- `socks5.rs` `Socks5::handle_client`, steps 1–5 (handshake, method
check, credential read, UTF-8 decode, `parse_username`, authorization
predicate `username == "modem" && iface_map.contains_key(&password)`, auth
response write).  Returns `((parsed_user, fingerprint), password)` on
success, plus the trace so far. -/
def authStage (cfg : Socks5Cfg) (w : SWorld) :
    Except SErr ((List Char × OsFingerprint) × List Char) × List SEvent :=
  match w.hsReq with
  | .error e => (.error (.handshake e), [])
  | .ok methods =>
    if methods.contains 2 = false then
      match w.wHs with
      | .error e => (.error (.responseWrite e), [.writeHandshakeResp 0xFF])
      | .ok _ => (.error .unsupportedMethod, [.writeHandshakeResp 0xFF])
    else
      match w.wHs with
      | .error e => (.error (.responseWrite e), [.writeHandshakeResp 2])
      | .ok _ =>
        let t1 : List SEvent := [.writeHandshakeResp 2]
        match w.pwdReq with
        | .error e => (.error (.passwordRequest e), t1)
        | .ok req =>
          match utf8Decode req.1 with
          | none => (.error .utf8, t1)
          | some username =>
            match utf8Decode req.2 with
            | none => (.error .utf8, t1)
            | some password =>
              match parse_username username cfg.fingerprint with
              | .error _ => (.error (.authenticationFailed username), t1)
              | .ok parsed =>
                let authOk : Bool :=
                  parsed.1 == "modem".toList && (cfg.ifaceMap.lookup password).isSome
                let t2 := t1 ++ [.writeAuthResp authOk]
                match w.wAuth with
                | .error e => (.error (.passwordResponseWrite e), t2)
                | .ok _ =>
                  if authOk then (.ok (parsed, password), t2)
                  else (.error (.authenticationFailed parsed.1), t2)

/-- `socks5.rs` `Socks5::server_socks5_connect`: parse the requested
address back from its string form; connect through the Interface Binder;
on success write `Reply::Succeeded` echoing the requested address; then
`copy_bidirectional` (whose error is also mapped to `Socks5Error::Connect`).
No `Response` is written on the parse-failure or connect-failure paths. -/
def server_socks5_connect (w : SWorld) (ifname : List Char)
    (requestedAddr : Socks5Address) (fingerprint : OsFingerprint) :
    Except SErr (Nat × Nat) × List SEvent :=
  match addrParse requestedAddr with
  | .error _ => (.error .invalidAddress, [])
  | .ok sockAddr =>
    let conn := tcp_connect_with_fingerprint w.tcpw sockAddr ifname fingerprint
    let tevs := conn.2.map SEvent.tcp
    match conn.1 with
    | .error e => (.error (.connect e), tevs)
    | .ok _ =>
      match w.wResp with
      | .error e =>
        (.error (.responseWrite e), tevs ++ [.writeResponse .succeeded requestedAddr])
      | .ok _ =>
        match w.relay with
        | .error e =>
          (.error (.connect (.os e)),
            tevs ++ [.writeResponse .succeeded requestedAddr, .relayed])
        | .ok counts =>
          (.ok counts, tevs ++ [.writeResponse .succeeded requestedAddr, .relayed])

/-- `socks5.rs` `Socks5::handle_client`, steps 6–8 composed after
`authStage`: read the SOCKS5 request, look up the device name for the
authenticated password (`.unwrap()` in the source, reachable only after
`contains_key` succeeded — modelled total with `getD`), and dispatch:
`Connect` runs `server_socks5_connect`; `Associate` answers
`ConnectionNotAllowed`; any other command answers `CommandNotSupported`. -/
def handle_client (cfg : Socks5Cfg) (w : SWorld) :
    Except SErr Unit × List SEvent :=
  let a := authStage cfg w
  match a.1 with
  | .error e => (.error e, a.2)
  | .ok auth =>
    match w.cmdReq with
    | .error e => (.error (.requestRead e), a.2)
    | .ok req =>
      let ifname := (cfg.ifaceMap.lookup auth.2).getD []
      match req.1 with
      | .connect =>
        let r := server_socks5_connect w ifname req.2 auth.1.2
        (r.1.map (fun _ => ()), a.2 ++ r.2)
      | .associate =>
        match w.wResp with
        | .error e =>
          (.error (.responseWrite e), a.2 ++ [.writeResponse .connectionNotAllowed req.2])
        | .ok _ =>
          (.error (.commandNotAllowed .associate),
            a.2 ++ [.writeResponse .connectionNotAllowed req.2])
      | .bind =>
        match w.wResp with
        | .error e =>
          (.error (.responseWrite e), a.2 ++ [.writeResponse .commandNotSupported req.2])
        | .ok _ =>
          (.error (.unsupportedCommand .bind),
            a.2 ++ [.writeResponse .commandNotSupported req.2])

/-- The trace of steps 1–5 is one of: nothing, a single handshake
response (`0xFF` or `0x02`), or the `0x02` handshake response followed by
one auth response. -/
theorem authStage_trace (cfg : Socks5Cfg) (w : SWorld) :
    (authStage cfg w).2 = [] ∨
      (authStage cfg w).2 = [.writeHandshakeResp 255] ∨
      (authStage cfg w).2 = [.writeHandshakeResp 2] ∨
      ∃ b, (authStage cfg w).2 = [.writeHandshakeResp 2, .writeAuthResp b] := by
  unfold authStage
  rcases w with ⟨hs, wh, pw, wa, cm, wr, tw, rl⟩
  rcases hs with e1 | methods
  · simp
  · dsimp only
    by_cases hm : methods.contains 2 = false
    · rw [if_pos hm]
      rcases wh with e2 | u2 <;> simp
    · rw [if_neg hm]
      rcases wh with e2 | u2
      · simp
      · dsimp only
        rcases pw with e3 | ⟨ub, pb⟩
        · simp
        · dsimp only
          rcases utf8Decode ub with _ | uname
          · simp
          · dsimp only
            rcases utf8Decode pb with _ | pass
            · simp
            · dsimp only
              rcases parse_username uname cfg.fingerprint with tag | parsed
              · simp
              · dsimp only
                rcases wa with e4 | u4
                · exact Or.inr (Or.inr (Or.inr ⟨_, rfl⟩))
                · dsimp only
                  split <;> exact Or.inr (Or.inr (Or.inr ⟨_, rfl⟩))

/-- Every event issued during steps 1–5 is a handshake response or an auth
response (no `Response` record, no outbound-socket syscall, no relaying). -/
theorem authStage_events (cfg : Socks5Cfg) (w : SWorld) (e : SEvent)
    (he : e ∈ (authStage cfg w).2) :
    e = .writeHandshakeResp 255 ∨ e = .writeHandshakeResp 2 ∨
      ∃ b, e = .writeAuthResp b := by
  rcases authStage_trace cfg w with h | h | h | ⟨b, h⟩ <;> rw [h] at he
  · simp at he
  · simp at he
    simp [he]
  · simp at he
    simp [he]
  · simp at he
    rcases he with he | he
    · exact Or.inr (Or.inl he)
    · exact Or.inr (Or.inr ⟨b, he⟩)

/-- Every event issued by `server_socks5_connect` is an outbound-socket
syscall, the success `Response`, or the relay entry. -/
theorem server_socks5_connect_events (w : SWorld) (ifname : List Char)
    (addr : Socks5Address) (fp : OsFingerprint) (e : SEvent)
    (he : e ∈ (server_socks5_connect w ifname addr fp).2) :
    (∃ t, e = SEvent.tcp t) ∨ e = .writeResponse .succeeded addr ∨ e = .relayed := by
  unfold server_socks5_connect at he
  rcases ha : addrParse addr with u | sa <;> rw [ha] at he
  · simp at he
  · dsimp only at he
    rcases hc : (tcp_connect_with_fingerprint w.tcpw sa ifname fp).1 with e1 | u1 <;>
      rw [hc] at he
    · dsimp only at he
      rcases List.mem_map.1 he with ⟨t, _, ht⟩
      exact Or.inl ⟨t, ht.symm⟩
    · dsimp only at he
      rcases hw : w.wResp with e2 | u2 <;> rw [hw] at he
      · dsimp only at he
        rcases List.mem_append.1 he with h | h
        · rcases List.mem_map.1 h with ⟨t, _, ht⟩
          exact Or.inl ⟨t, ht.symm⟩
        · simp at h
          simp [h]
      · dsimp only at he
        rcases hr : w.relay with e3 | counts <;> rw [hr] at he <;> dsimp only at he <;>
          rcases List.mem_append.1 he with h | h <;>
          first
          | (rcases List.mem_map.1 h with ⟨t, _, ht⟩; exact Or.inl ⟨t, ht.symm⟩)
          | (simp at h; rcases h with h | h <;> simp [h])

/-- The session trace splits as the steps 1–5 trace followed by dispatch
events, and every dispatch event is an outbound syscall, a `Response`
record, or the relay entry. -/
theorem handle_client_trace_split (cfg : Socks5Cfg) (w : SWorld) :
    ∃ rest, (handle_client cfg w).2 = (authStage cfg w).2 ++ rest ∧
      ∀ e ∈ rest,
        (∃ t, e = SEvent.tcp t) ∨ (∃ r a2, e = .writeResponse r a2) ∨ e = .relayed := by
  unfold handle_client
  dsimp only
  rcases ha : (authStage cfg w).1 with e1 | auth
  · exact ⟨[], by simp⟩
  · dsimp only
    rcases hcm : w.cmdReq with e2 | ⟨cmd, caddr⟩
    · exact ⟨[], by simp⟩
    · dsimp only
      rcases cmd
      · refine ⟨(server_socks5_connect w ((cfg.ifaceMap.lookup auth.2).getD [])
          caddr auth.1.2).2, rfl, ?_⟩
        intro e he
        rcases server_socks5_connect_events _ _ _ _ e he with ⟨t, ht⟩ | h | h
        · exact Or.inl ⟨t, ht⟩
        · exact Or.inr (Or.inl ⟨_, _, h⟩)
        · exact Or.inr (Or.inr h)
      · rcases hw : w.wResp with e3 | u3 <;>
          exact ⟨[.writeResponse .commandNotSupported caddr], rfl, by simp⟩
      · rcases hw : w.wResp with e3 | u3 <;>
          exact ⟨[.writeResponse .connectionNotAllowed caddr], rfl, by simp⟩

/-- If `server_socks5_connect` reaches the relay, the outbound connect
succeeded, the success-reply write succeeded, and its trace ends with the
connect syscall followed by the success reply followed by the relay. -/
theorem server_socks5_connect_relayed (w : SWorld) (ifname : List Char)
    (addr : Socks5Address) (fp : OsFingerprint)
    (h : SEvent.relayed ∈ (server_socks5_connect w ifname addr fp).2) :
    w.tcpw.connect = .ok () ∧ w.wResp = .ok () ∧
      ∃ pre sa, (server_socks5_connect w ifname addr fp).2 =
        pre ++ [SEvent.tcp (.connect sa), .writeResponse .succeeded addr, .relayed] := by
  unfold server_socks5_connect at h ⊢
  rcases ha : addrParse addr with u | sa
  · simp [ha] at h
  · dsimp only at h ⊢
    rcases hc : (tcp_connect_with_fingerprint w.tcpw sa ifname fp).1 with e1 | u1
    · simp [ha, hc] at h
    · have hok : (tcp_connect_with_fingerprint w.tcpw sa ifname fp).1 = .ok () := by
        cases u1
        exact hc
      obtain ⟨htr, hco⟩ := tcp_ok_trace w.tcpw sa ifname fp hok
      rcases hw : w.wResp with e2 | u2
      · simp [ha, hok, hw] at h
      · refine ⟨hco, rfl, ?_⟩
        rcases hr : w.relay with e3 | counts <;>
          exact ⟨(tcpFullTrace sa ifname fp).dropLast.map SEvent.tcp, sa,
            by simp [htr, tcpFullTrace]⟩

/-- C2: whenever a session's trace reaches the relay stage
(`copy_bidirectional`), the outbound connect returned success, the SOCKS5
success reply write succeeded, and the trace shows the connect syscall and
the fully written `Succeeded` reply strictly before the relay entry (which
is the final event) — so no byte is forwarded before both events. -/
theorem c2_relay_after_connect_and_reply (cfg : Socks5Cfg) (w : SWorld)
    (h : SEvent.relayed ∈ (handle_client cfg w).2) :
    w.tcpw.connect = .ok () ∧ w.wResp = .ok () ∧
      ∃ pre sa addr, (handle_client cfg w).2 =
        pre ++ [SEvent.tcp (.connect sa), .writeResponse .succeeded addr, .relayed] := by
  have hsplit := handle_client_trace_split cfg w
  obtain ⟨rest, heq, hrest⟩ := hsplit
  have heq0 := heq
  rw [heq] at h
  rcases List.mem_append.1 h with h1 | h1
  · rcases authStage_events cfg w _ h1 with h2 | h2 | ⟨b, h2⟩ <;> simp at h2
  · unfold handle_client at heq
    dsimp only at heq
    rcases ha : (authStage cfg w).1 with e1 | auth <;> rw [ha] at heq
    · dsimp only at heq
      have hnil : (authStage cfg w).2 ++ rest = (authStage cfg w).2 ++ [] := by
        simpa using heq.symm
      rw [List.append_cancel_left hnil] at h1
      simp at h1
    · dsimp only at heq
      rcases hcm : w.cmdReq with e2 | ⟨cmd, caddr⟩ <;> rw [hcm] at heq
      · dsimp only at heq
        have hnil : (authStage cfg w).2 ++ rest = (authStage cfg w).2 ++ [] := by
          simpa using heq.symm
        rw [List.append_cancel_left hnil] at h1
        simp at h1
      · dsimp only at heq
        rcases cmd <;> dsimp only at heq
        · have hrest2 : rest = (server_socks5_connect w
              ((cfg.ifaceMap.lookup auth.2).getD []) caddr auth.1.2).2 :=
            List.append_cancel_left heq.symm
          rw [hrest2] at h1
          obtain ⟨hco, hwr, pre, sa, hfin⟩ :=
            server_socks5_connect_relayed w ((cfg.ifaceMap.lookup auth.2).getD [])
              caddr auth.1.2 h1
          refine ⟨hco, hwr, (authStage cfg w).2 ++ pre, sa, caddr, ?_⟩
          rw [heq0, hrest2, hfin]
          simp
        · rcases hw : w.wResp with e3 | u3 <;> rw [hw] at heq <;> dsimp only at heq <;>
            · have hone : rest = [SEvent.writeResponse .commandNotSupported caddr] :=
                List.append_cancel_left heq.symm
              rw [hone] at h1
              simp at h1
        · rcases hw : w.wResp with e3 | u3 <;> rw [hw] at heq <;> dsimp only at heq <;>
            · have hone : rest = [SEvent.writeResponse .connectionNotAllowed caddr] :=
                List.append_cancel_left heq.symm
              rw [hone] at h1
              simp at h1

/-- Example configuration: default fingerprint Windows, interface map with
the single entry `id-a ↦ enx1`. -/
def cfgEx : Socks5Cfg :=
  { fingerprint := .windows, ifaceMap := [("id-a".toList, "enx1".toList)] }

/-- A fully successful session world: methods `{0x00, 0x02}`, credentials
`modem` / `id-a`, `CONNECT 93.184.216.34:80`, all writes and syscalls
succeeding, relay moving 5/7 bytes. -/
def wRelayEx : SWorld :=
  { hsReq := .ok [0, 2], wHs := .ok (),
    pwdReq := .ok (asciiBytes "modem".toList, asciiBytes "id-a".toList),
    wAuth := .ok (), cmdReq := .ok (.connect, .ip addrEx),
    wResp := .ok (), tcpw := tcpWorldOk, relay := .ok (5, 7) }

/-- Same session but with the domain-name target `example.com:80`. -/
def wDomainEx : SWorld :=
  { wRelayEx with cmdReq := .ok (.connect, .domain "example.com".toList 80) }

/-- Same session but the outbound connect fails with OS error 111
(`ECONNREFUSED`). -/
def wConnFailEx : SWorld :=
  { wRelayEx with tcpw := { tcpWorldOk with connect := .error ⟨111⟩ } }

/-- Same session but the username carries the unknown tag `bsd`. -/
def wBadTagEx : SWorld :=
  { wRelayEx with
    pwdReq := .ok (asciiBytes "modem-fingerprint-bsd".toList, asciiBytes "id-a".toList) }

/-- Same session but with the unknown password `id-z`. -/
def wBadPassEx : SWorld :=
  { wRelayEx with
    pwdReq := .ok (asciiBytes "modem".toList, asciiBytes "id-z".toList) }

/-- Same session but the username bytes are not valid UTF-8 (`0xFF`). -/
def wBadUtf8Ex : SWorld :=
  { wRelayEx with pwdReq := .ok ([255], asciiBytes "id-a".toList) }

/-- Witness for C2 at the fully successful session: the relay is reached,
and the trace ends with connect, success reply, relay in that order. -/
theorem c2_relay_after_connect_and_reply_witness :
    wRelayEx.tcpw.connect = .ok () ∧ wRelayEx.wResp = .ok () ∧
      ∃ pre sa addr, (handle_client cfgEx wRelayEx).2 =
        pre ++ [SEvent.tcp (.connect sa), .writeResponse .succeeded addr, .relayed] :=
  c2_relay_after_connect_and_reply cfgEx wRelayEx (by decide)

/-- When steps 1–5 end in an error, the session stops with that error and
the trace so far. -/
theorem handle_client_authStage_err (cfg : Socks5Cfg) (w : SWorld) (e : SErr)
    (h : (authStage cfg w).1 = .error e) :
    handle_client cfg w = (.error e, (authStage cfg w).2) := by
  unfold handle_client
  dsimp only
  rw [h]

/-- Explicit value of `authStage` along the path where reads, writes and
decodes succeed and the username parses. -/
theorem authStage_ok_path (cfg : Socks5Cfg) (w : SWorld) (methods : List Nat)
    (ub pb : List Nat) (uname pass user : List Char) (fp : OsFingerprint)
    (h1 : w.hsReq = .ok methods) (h2 : methods.contains 2 = true)
    (h3 : w.wHs = .ok ()) (h4 : w.pwdReq = .ok (ub, pb))
    (h5 : utf8Decode ub = some uname) (h6 : utf8Decode pb = some pass)
    (h7 : parse_username uname cfg.fingerprint = .ok (user, fp)) :
    authStage cfg w =
      ((match w.wAuth with
        | .error e => .error (.passwordResponseWrite e)
        | .ok _ =>
          if user == "modem".toList && (cfg.ifaceMap.lookup pass).isSome
          then .ok ((user, fp), pass)
          else .error (.authenticationFailed user)),
       [.writeHandshakeResp 2,
        .writeAuthResp (user == "modem".toList && (cfg.ifaceMap.lookup pass).isSome)]) := by
  unfold authStage
  rw [h1]
  dsimp only
  rw [if_neg (by rw [h2]; simp), h3]
  dsimp only
  rw [h4]
  dsimp only
  rw [h5]
  dsimp only
  rw [h6]
  dsimp only
  rw [h7]
  dsimp only
  rcases w.wAuth with e | u
  · rfl
  · dsimp only
    by_cases hok : (user == "modem".toList && (List.lookup pass cfg.ifaceMap).isSome) = true
    · rw [if_pos hok, if_pos hok]
      rfl
    · rw [if_neg hok, if_neg hok]
      rfl

/-- Explicit value of `authStage` along the path where the username fails
to parse (unknown fingerprint tag): the connection is dropped with no auth
response written at all. -/
theorem authStage_parse_err_path (cfg : Socks5Cfg) (w : SWorld) (methods : List Nat)
    (ub pb : List Nat) (uname pass tag : List Char)
    (h1 : w.hsReq = .ok methods) (h2 : methods.contains 2 = true)
    (h3 : w.wHs = .ok ()) (h4 : w.pwdReq = .ok (ub, pb))
    (h5 : utf8Decode ub = some uname) (h6 : utf8Decode pb = some pass)
    (h7 : parse_username uname cfg.fingerprint = .error tag) :
    authStage cfg w =
      (.error (.authenticationFailed uname), [.writeHandshakeResp 2]) := by
  unfold authStage
  rw [h1]
  dsimp only
  rw [if_neg (by rw [h2]; simp), h3]
  dsimp only
  rw [h4]
  dsimp only
  rw [h5]
  dsimp only
  rw [h6]
  dsimp only
  rw [h7]

/-- Explicit value of `authStage` along the path where the username or
password bytes fail UTF-8 decoding: the connection is dropped with the
`Utf8` error and no auth response written at all. -/
theorem authStage_utf8_err_path (cfg : Socks5Cfg) (w : SWorld) (methods : List Nat)
    (ub pb : List Nat)
    (h1 : w.hsReq = .ok methods) (h2 : methods.contains 2 = true)
    (h3 : w.wHs = .ok ()) (h4 : w.pwdReq = .ok (ub, pb))
    (h5 : utf8Decode ub = none ∨ utf8Decode pb = none) :
    authStage cfg w = (.error .utf8, [.writeHandshakeResp 2]) := by
  unfold authStage
  rw [h1]
  dsimp only
  rw [if_neg (by rw [h2]; simp), h3]
  dsimp only
  rw [h4]
  dsimp only
  rcases h5 with h5 | h5
  · rw [h5]
  · rcases hu : utf8Decode ub with _ | uname
    · rfl
    · dsimp only
      rw [h5]

/-- C4 counterexample: a fully authenticated session with the domain-name
target `example.com:80` closes with `InvalidAddress`, and its complete
trace `[method reply 0x02, auth success]` holds **no** SOCKS5 `Response`
record at all — the claimed `General failure (0x01)` reply is never
written to the client. -/
theorem c4_counterexample :
    handle_client cfgEx wDomainEx =
      (.error .invalidAddress, [.writeHandshakeResp 2, .writeAuthResp true]) := by
  decide

/-- C4 (amended): when the CONNECT target is a domain name that does not
re-parse as a literal socket address, or the interface-bound connect
returns an OS error, the session terminates with that error and writes no
SOCKS5 `Response` of any kind (the connection is simply closed; the error
is surfaced to the acceptor's logger). -/
theorem c4_setup_failure_silent (cfg : Socks5Cfg) (w : SWorld)
    (auth : (List Char × OsFingerprint) × List Char) (caddr : Socks5Address)
    (ha : (authStage cfg w).1 = .ok auth)
    (hcm : w.cmdReq = .ok (.connect, caddr)) :
    (addrParse caddr = .error () →
      (handle_client cfg w).1 = .error .invalidAddress ∧
      ∀ r a2, SEvent.writeResponse r a2 ∉ (handle_client cfg w).2) ∧
    (∀ sa e, addrParse caddr = .ok sa →
      (tcp_connect_with_fingerprint w.tcpw sa
          ((cfg.ifaceMap.lookup auth.2).getD []) auth.1.2).1 = .error e →
      (handle_client cfg w).1 = .error (.connect e) ∧
      ∀ r a2, SEvent.writeResponse r a2 ∉ (handle_client cfg w).2) := by
  have hcli : handle_client cfg w =
      ((server_socks5_connect w ((cfg.ifaceMap.lookup auth.2).getD [])
          caddr auth.1.2).1.map (fun _ => ()),
        (authStage cfg w).2 ++
          (server_socks5_connect w ((cfg.ifaceMap.lookup auth.2).getD [])
            caddr auth.1.2).2) := by
    unfold handle_client
    dsimp only
    rw [ha, hcm]
  constructor
  · intro hpe
    have hsc : server_socks5_connect w ((cfg.ifaceMap.lookup auth.2).getD [])
        caddr auth.1.2 = (.error .invalidAddress, []) := by
      unfold server_socks5_connect
      rw [hpe]
    rw [hcli, hsc]
    refine ⟨rfl, ?_⟩
    intro r a2 hmem
    simp only [List.append_nil] at hmem
    rcases authStage_events cfg w _ hmem with h2 | h2 | ⟨b, h2⟩ <;> simp at h2
  · intro sa e hpa hce
    have hsc : server_socks5_connect w ((cfg.ifaceMap.lookup auth.2).getD [])
        caddr auth.1.2 =
        (.error (.connect e),
          (tcp_connect_with_fingerprint w.tcpw sa
            ((cfg.ifaceMap.lookup auth.2).getD []) auth.1.2).2.map SEvent.tcp) := by
      unfold server_socks5_connect
      rw [hpa]
      dsimp only
      rw [hce]
    rw [hcli, hsc]
    refine ⟨rfl, ?_⟩
    intro r a2 hmem
    rcases List.mem_append.1 hmem with hm | hm
    · rcases authStage_events cfg w _ hm with h2 | h2 | ⟨b, h2⟩ <;> simp at h2
    · rcases List.mem_map.1 hm with ⟨t, _, ht⟩
      simp at ht

/-- Witness for C4's amended theorem: concretely, the domain-target
session ends with `InvalidAddress` and zero `Response` records, and the
refused-connect session ends with `Connect(ECONNREFUSED)` and zero
`Response` records. -/
theorem c4_setup_failure_silent_witness :
    ((handle_client cfgEx wDomainEx).1 = .error .invalidAddress ∧
      ∀ r a2, SEvent.writeResponse r a2 ∉ (handle_client cfgEx wDomainEx).2) ∧
    ((handle_client cfgEx wConnFailEx).1 = .error (.connect (.os ⟨111⟩)) ∧
      ∀ r a2, SEvent.writeResponse r a2 ∉ (handle_client cfgEx wConnFailEx).2) := by
  constructor
  · exact (c4_setup_failure_silent cfgEx wDomainEx
      (("modem".toList, .windows), "id-a".toList)
      (.domain "example.com".toList 80) (by decide) (by decide)).1 (by decide)
  · exact (c4_setup_failure_silent cfgEx wConnFailEx
      (("modem".toList, .windows), "id-a".toList)
      (.ip addrEx) (by decide) (by decide)).2 addrEx (.os ⟨111⟩) (by decide) (by decide)

/-- C5 counterexample: for the sub-negotiation record with username
`modem-fingerprint-bsd` (an unknown tag) and a mapped password, the
session closes with an authentication failure but writes **no**
sub-negotiation response at all — the trace is just the method reply, so
the claimed failure response `0x01` is not written. -/
theorem c5_counterexample :
    handle_client cfgEx wBadTagEx =
      (.error (.authenticationFailed "modem-fingerprint-bsd".toList),
        [SEvent.writeHandshakeResp 2]) := by
  decide

/-- C5 (amended): (i) for a record whose username and password decode as
UTF-8 and whose username parses, the success response (`0x00`) is written
iff the parsed user is `"modem"` and the Interface Map contains the
password; when that predicate fails (and the response write succeeds) the
session is exactly the failure response `0x01` followed by closing, with
no outbound socket ever created; (ii) if the username carries an unknown
fingerprint tag, the session closes with no sub-negotiation response
written at all (and likewise no outbound socket); (iii) if the username
or password bytes fail UTF-8 decoding, the session likewise closes with
no sub-negotiation response written and no outbound socket. -/
theorem c5_auth_predicate (cfg : Socks5Cfg) (w : SWorld) (methods : List Nat)
    (ub pb : List Nat)
    (h1 : w.hsReq = .ok methods) (h2 : methods.contains 2 = true)
    (h3 : w.wHs = .ok ()) (h4 : w.pwdReq = .ok (ub, pb)) :
    (∀ uname pass user fp,
      utf8Decode ub = some uname → utf8Decode pb = some pass →
      parse_username uname cfg.fingerprint = .ok (user, fp) →
      ((SEvent.writeAuthResp true ∈ (handle_client cfg w).2) ↔
        (user = "modem".toList ∧ (cfg.ifaceMap.lookup pass).isSome = true)) ∧
      (w.wAuth = .ok () →
        ¬(user = "modem".toList ∧ (cfg.ifaceMap.lookup pass).isSome = true) →
        handle_client cfg w =
          (.error (.authenticationFailed user),
            [.writeHandshakeResp 2, .writeAuthResp false]))) ∧
    (∀ uname pass tag,
      utf8Decode ub = some uname → utf8Decode pb = some pass →
      parse_username uname cfg.fingerprint = .error tag →
      handle_client cfg w =
        (.error (.authenticationFailed uname), [.writeHandshakeResp 2])) ∧
    ((utf8Decode ub = none ∨ utf8Decode pb = none) →
      handle_client cfg w = (.error .utf8, [.writeHandshakeResp 2])) := by
  refine ⟨?_, ?_, ?_⟩
  · intro uname pass user fp h5 h6 h7
    have hpath := authStage_ok_path cfg w methods ub pb uname pass user fp
      h1 h2 h3 h4 h5 h6 h7
    have htr : (authStage cfg w).2 =
        [.writeHandshakeResp 2,
          .writeAuthResp (user == "modem".toList && (cfg.ifaceMap.lookup pass).isSome)] :=
      congrArg Prod.snd hpath
    constructor
    · obtain ⟨rest, heq, hrest⟩ := handle_client_trace_split cfg w
      constructor
      · intro hmem
        rw [heq, htr] at hmem
        rcases List.mem_append.1 hmem with hm | hm
        · simp at hm
          constructor
          · simpa using hm.1
          · simpa using hm.2
        · rcases hrest _ hm with ⟨t, ht⟩ | ⟨r, a2, ht⟩ | ht <;> simp at ht
      · intro hpred
        rw [heq, htr]
        have hb : (user == "modem".toList && (cfg.ifaceMap.lookup pass).isSome) = true := by
          simp [hpred.1, hpred.2]
        rw [hb]
        simp
    · intro hwa hpred
      have hb : (user == "modem".toList && (cfg.ifaceMap.lookup pass).isSome) = false := by
        rcases Bool.eq_false_or_eq_true
          (user == "modem".toList && (cfg.ifaceMap.lookup pass).isSome) with h | h
        · exfalso
          apply hpred
          simp only [Bool.and_eq_true, beq_iff_eq] at h
          exact ⟨h.1, h.2⟩
        · exact h
      have hres : (authStage cfg w).1 = .error (.authenticationFailed user) := by
        have := congrArg Prod.fst hpath
        rw [hwa] at this
        dsimp only at this
        rw [hb] at this
        simpa using this
      rw [handle_client_authStage_err cfg w _ hres, htr, hb]
  · intro uname pass tag h5 h6 h7
    have hpath := authStage_parse_err_path cfg w methods ub pb uname pass tag
      h1 h2 h3 h4 h5 h6 h7
    have hres : (authStage cfg w).1 = .error (.authenticationFailed uname) :=
      congrArg Prod.fst hpath
    have htr : (authStage cfg w).2 = [.writeHandshakeResp 2] :=
      congrArg Prod.snd hpath
    rw [handle_client_authStage_err cfg w _ hres, htr]
  · intro h5
    have hpath := authStage_utf8_err_path cfg w methods ub pb h1 h2 h3 h4 h5
    have hres : (authStage cfg w).1 = .error .utf8 :=
      congrArg Prod.fst hpath
    have htr : (authStage cfg w).2 = [.writeHandshakeResp 2] :=
      congrArg Prod.snd hpath
    rw [handle_client_authStage_err cfg w _ hres, htr]

/-- Witness for C5's amended theorem: the success response is written for
`modem`/`id-a`; `modem`/`id-z` (unknown password) produces exactly the
`0x01` failure response and closes with no outbound socket; and the
invalid-UTF-8 username closes with no auth response at all. -/
theorem c5_auth_predicate_witness :
    (SEvent.writeAuthResp true ∈ (handle_client cfgEx wRelayEx).2) ∧
      handle_client cfgEx wBadPassEx =
        (.error (.authenticationFailed "modem".toList),
          [.writeHandshakeResp 2, .writeAuthResp false]) ∧
      handle_client cfgEx wBadUtf8Ex = (.error .utf8, [.writeHandshakeResp 2]) := by
  refine ⟨?_, ?_, ?_⟩
  · exact (((c5_auth_predicate cfgEx wRelayEx [0, 2]
      (asciiBytes "modem".toList) (asciiBytes "id-a".toList)
      (by decide) (by decide) (by decide) (by decide)).1
      "modem".toList "id-a".toList "modem".toList .windows
      (by decide) (by decide) (by decide)).1).mpr (by decide)
  · exact ((c5_auth_predicate cfgEx wBadPassEx [0, 2]
      (asciiBytes "modem".toList) (asciiBytes "id-z".toList)
      (by decide) (by decide) (by decide) (by decide)).1
      "modem".toList "id-z".toList "modem".toList .windows
      (by decide) (by decide) (by decide)).2 (by decide) (by decide)
  · exact (c5_auth_predicate cfgEx wBadUtf8Ex [0, 2]
      [255] (asciiBytes "id-a".toList)
      (by decide) (by decide) (by decide) (by decide)).2.2 (Or.inl (by decide))

/-! ### `modem_huaweie337.rs`: the modem client -/

/-- `HuaweiE337` struct: host, optional session and verification tokens,
request timeout in seconds. -/
structure HuaweiE337 where
  host : List Char
  sessionToken : Option (List Char)
  verificationToken : Option (List Char)
  timeoutSecs : Nat
deriving DecidableEq, Repr

/-- An HTTP response as the client observes it: the optional
`__RequestVerificationToken` header (whose value's `to_str()` may fail on
non-ASCII bytes, modelled as `Except Unit`), and the body text read
(`resp.text()`, which may fail). -/
structure HttpResponse where
  verificationTokenHeader : Option (Except Unit (List Char))
  body : Except IOErr (List Char)
deriving Repr

/-- Outcome of the one HTTP request `reboot` makes. -/
structure RebootWorld where
  send : Except IOErr HttpResponse
deriving Repr

/-- Externally visible action of `reboot`: the POST to
`/api/device/control` with its body and the two auth header values. -/
inductive MEvent where
  | postDeviceControl (host : List Char) (body : List Char)
      (sessionCookie verifHeader : List Char)
deriving DecidableEq, Repr

/-- The error cases of `HuaweiE337::reboot` (all `anyhow`/boxed errors in
the source, distinguished here by their message). -/
inductive RebootErr where
  | notInitialized
  | missingTokens
  | http (e : IOErr)
  | headerNotAscii
  | reconnectFailed (body : List Char)
deriving DecidableEq, Repr

/-- The reconnect payload sent by `reboot`. -/
def rebootXml : List Char :=
  "<?xml version=\"1.0\" encoding=\"UTF-8\"?><request><Control>1</Control></request>".toList

/-- The success marker `reboot` looks for in the response body. -/
def okMarker : List Char := "<response>OK</response>".toList

/-- Tail of `reboot` after the header update: read the body
(`resp.text()`), then succeed iff it contains `okMarker`, otherwise fail
carrying the raw body (`anyhow!("Reconnect failed: {}", response_text)`). -/
def rebootBody (m : HuaweiE337) (resp : HttpResponse) (ev : List MEvent) :
    Except RebootErr Unit × HuaweiE337 × List MEvent :=
  match resp.body with
  | .error e => (.error (.http e), m, ev)
  | .ok text =>
    if containsSubstr text okMarker then (.ok (), m, ev)
    else (.error (.reconnectFailed text), m, ev)

/-- `HuaweiE337::reboot`: fail synchronously if either token is unset
(the `is_none` guard, before any request); otherwise POST
`/api/device/control` with the reconnect XML and the two auth headers;
if the response carries a `__RequestVerificationToken` header, overwrite
`verification_token` with its `to_str()` value (failing if it is not
ASCII); then check the body for `okMarker`.  Returns the result, the
updated client state, and the trace of requests sent. -/
def reboot (m : HuaweiE337) (w : RebootWorld) :
    Except RebootErr Unit × HuaweiE337 × List MEvent :=
  if m.sessionToken.isNone || m.verificationToken.isNone then
    (.error .notInitialized, m, [])
  else
    match m.sessionToken, m.verificationToken with
    | some tok, some vtok =>
      let ev : List MEvent := [.postDeviceControl m.host rebootXml tok vtok]
      match w.send with
      | .error e => (.error (.http e), m, ev)
      | .ok resp =>
        match resp.verificationTokenHeader with
        | some hv =>
          match hv with
          | .error _ => (.error .headerNotAscii, m, ev)
          | .ok s => rebootBody { m with verificationToken := some s } resp ev
        | none => rebootBody m resp ev
    | _, _ => (.error .missingTokens, m, [])

/-! ### `modem_huaweie337.rs` `encrypt_with_public_key`: key-field decoding -/

/-- Value of one hex digit (`hex` crate). -/
def hexDigitVal (c : Char) : Option Nat :=
  if 48 ≤ c.toNat ∧ c.toNat ≤ 57 then some (c.toNat - 48)
  else if 97 ≤ c.toNat ∧ c.toNat ≤ 102 then some (c.toNat - 87)
  else if 65 ≤ c.toNat ∧ c.toNat ≤ 70 then some (c.toNat - 55)
  else none

/-- Model of `hex::decode`: even number of hex digits, two digits per
byte; anything else fails. -/
def hexDecode : List Char → Option (List Nat)
  | [] => some []
  | [_] => none
  | c1 :: c2 :: rest =>
    match hexDigitVal c1, hexDigitVal c2, hexDecode rest with
    | some hi, some lo, some bs => some ((hi * 16 + lo) :: bs)
    | _, _, _ => none

/-- Value of one standard-alphabet base64 symbol. -/
def b64Val (c : Char) : Option Nat :=
  if 65 ≤ c.toNat ∧ c.toNat ≤ 90 then some (c.toNat - 65)
  else if 97 ≤ c.toNat ∧ c.toNat ≤ 122 then some (c.toNat - 71)
  else if 48 ≤ c.toNat ∧ c.toNat ≤ 57 then some (c.toNat + 4)
  else if c = '+' then some 62
  else if c = '/' then some 63
  else none

/-- Base64 groups (padding already stripped): full 4-symbol groups, with a
final group of 2 or 3 symbols allowed (rejecting non-zero trailing bits,
as the `base64` crate's standard config does); a final group of 1 symbol
is invalid. -/
def b64decodeCore : List Char → Option (List Nat)
  | [] => some []
  | [_] => none
  | [c1, c2] =>
    match b64Val c1, b64Val c2 with
    | some v1, some v2 =>
      if v2 % 16 = 0 then some [v1 * 4 + v2 / 16] else none
    | _, _ => none
  | [c1, c2, c3] =>
    match b64Val c1, b64Val c2, b64Val c3 with
    | some v1, some v2, some v3 =>
      if v3 % 4 = 0 then
        some [v1 * 4 + v2 / 16, (v2 % 16) * 16 + v3 / 4]
      else none
    | _, _, _ => none
  | c1 :: c2 :: c3 :: c4 :: rest =>
    match b64Val c1, b64Val c2, b64Val c3, b64Val c4, b64decodeCore rest with
    | some v1, some v2, some v3, some v4, some bs =>
      some ((v1 * 4 + v2 / 16) :: ((v2 % 16) * 16 + v3 / 4) ::
        ((v3 % 4) * 64 + v4) :: bs)
    | _, _, _, _, _ => none

/-- Model of `base64::decode` (standard alphabet): strip up to two
trailing `=` padding chars (which must complete a 4-symbol group), reject
`=` anywhere else, then decode the symbol groups. -/
def b64decode (s : List Char) : Option (List Nat) :=
  let stripped :=
    match s.reverse with
    | '=' :: '=' :: rest => (rest.reverse, 2)
    | '=' :: rest => (rest.reverse, 1)
    | _ => (s, 0)
  if stripped.2 > 0 ∧ (stripped.1.length + stripped.2) % 4 ≠ 0 then none
  else if '=' ∈ stripped.1 then none
  else b64decodeCore stripped.1

/-- `encrypt_with_public_key` step 3, modulus: `b64decode(&modulus)`
first, `hex::decode(&modulus)` only when base64 fails. -/
def decodeModulus (s : List Char) : Option (List Nat) :=
  match b64decode s with
  | some bs => some bs
  | none => hexDecode s

/-- `encrypt_with_public_key` step 3, exponent: `hex::decode(&exponent)`
first, `b64decode(&exponent)` only when hex fails. -/
def decodeExponent (s : List Char) : Option (List Nat) :=
  match hexDecode s with
  | some bs => some bs
  | none => b64decode s

/-- C6: if either token is unset, `reboot` fails synchronously and sends
no HTTP request; and for a request whose response (with readable header,
if any) and body arrive, `reboot` succeeds iff both tokens were set and
the body contains the literal `<response>OK</response>`, any other body
failing with the raw body as diagnostic. -/
theorem c6_reboot_success_iff (m : HuaweiE337) (w : RebootWorld) :
    ((m.sessionToken.isNone ∨ m.verificationToken.isNone) →
      (reboot m w).1 = .error .notInitialized ∧ (reboot m w).2.2 = []) ∧
    (∀ resp text, w.send = .ok resp →
      (∀ hv, resp.verificationTokenHeader = some hv → ∃ s, hv = .ok s) →
      resp.body = .ok text →
      (((reboot m w).1 = .ok ()) ↔
        (m.sessionToken.isSome ∧ m.verificationToken.isSome ∧
          containsSubstr text okMarker = true)) ∧
      (m.sessionToken.isSome → m.verificationToken.isSome →
        containsSubstr text okMarker = false →
        (reboot m w).1 = .error (.reconnectFailed text))) := by
  rcases m with ⟨host, st, vt, ts⟩
  rcases st with _ | tok
  · refine ⟨fun _ => by simp [reboot], ?_⟩
    intro resp text hsend hhdr hbody
    constructor
    · simp [reboot]
    · intro hs
      simp at hs
  · rcases vt with _ | vtok
    · refine ⟨fun _ => by simp [reboot], ?_⟩
      intro resp text hsend hhdr hbody
      constructor
      · simp [reboot]
      · intro _ hs
        simp at hs
    · refine ⟨fun h => by simp at h, ?_⟩
      intro resp text hsend hhdr hbody
      rcases resp with ⟨hdr, body⟩
      dsimp only at hbody
      subst hbody
      rcases hdr with _ | hv
      · by_cases hok : containsSubstr text okMarker <;>
          simp [reboot, rebootBody, hsend, hok]
      · obtain ⟨s, rfl⟩ := hhdr hv rfl
        by_cases hok : containsSubstr text okMarker <;>
          simp [reboot, rebootBody, hsend, hok]

/-- Client with both tokens set. -/
def modemEx : HuaweiE337 :=
  { host := "192.168.8.1".toList, sessionToken := some "S".toList,
    verificationToken := some "T".toList, timeoutSecs := 30 }

/-- Client before `init()`: no tokens. -/
def modemNoTokEx : HuaweiE337 :=
  { modemEx with sessionToken := none, verificationToken := none }

/-- Response carrying a rolled verification token `T2` and an OK body. -/
def respOkEx : HttpResponse :=
  { verificationTokenHeader := some (.ok "T2".toList),
    body := .ok "<html><response>OK</response></html>".toList }

/-- Response with failure body and no token header. -/
def respFailEx : HttpResponse :=
  { verificationTokenHeader := none,
    body := .ok "<response>ERROR</response>".toList }

/-- Witness for C6: the token-less client fails with an empty request
trace; the initialized client succeeds on an OK body and fails carrying
the raw body on any other body. -/
theorem c6_reboot_success_iff_witness :
    ((reboot modemNoTokEx ⟨.ok respOkEx⟩).1 = .error .notInitialized ∧
      (reboot modemNoTokEx ⟨.ok respOkEx⟩).2.2 = []) ∧
    ((reboot modemEx ⟨.ok respOkEx⟩).1 = .ok ()) ∧
    ((reboot modemEx ⟨.ok respFailEx⟩).1 =
      .error (.reconnectFailed "<response>ERROR</response>".toList)) := by
  refine ⟨(c6_reboot_success_iff modemNoTokEx ⟨.ok respOkEx⟩).1 (by decide), ?_, ?_⟩
  · exact ((c6_reboot_success_iff modemEx ⟨.ok respOkEx⟩).2 respOkEx
      "<html><response>OK</response></html>".toList rfl
      (by
        intro hv h
        rw [show respOkEx.verificationTokenHeader = some (.ok "T2".toList) from rfl] at h
        exact ⟨"T2".toList, (Option.some.inj h).symm⟩) rfl).1.mpr
      ⟨rfl, rfl, by decide⟩
  · exact ((c6_reboot_success_iff modemEx ⟨.ok respFailEx⟩).2 respFailEx
      "<response>ERROR</response>".toList rfl
      (by intro hv h; simp [respFailEx] at h) rfl).2 rfl rfl (by decide)

/-- `rebootBody` never changes the client state it is given. -/
theorem rebootBody_frame (m : HuaweiE337) (resp : HttpResponse) (ev : List MEvent) :
    (rebootBody m resp ev).2.1 = m := by
  unfold rebootBody
  rcases resp.body with e | text
  · rfl
  · dsimp only
    split <;> rfl

/-- C10: `reboot` never changes `host`, `timeout` or `session_token`;
`verification_token` either keeps its value or is overwritten from a
present (readable) `__RequestVerificationToken` response header — and
whenever such a header is present on a completed request it *is*
overwritten, regardless of whether the body check later fails. -/
theorem c10_reboot_frame (m : HuaweiE337) (w : RebootWorld) :
    (reboot m w).2.1.host = m.host ∧
    (reboot m w).2.1.timeoutSecs = m.timeoutSecs ∧
    (reboot m w).2.1.sessionToken = m.sessionToken ∧
    ((reboot m w).2.1.verificationToken = m.verificationToken ∨
      ∃ resp s, w.send = .ok resp ∧
        resp.verificationTokenHeader = some (.ok s) ∧
        (reboot m w).2.1.verificationToken = some s) ∧
    (∀ resp s, m.sessionToken.isSome → m.verificationToken.isSome →
      w.send = .ok resp → resp.verificationTokenHeader = some (.ok s) →
      (reboot m w).2.1.verificationToken = some s) := by
  rcases m with ⟨host, st, vt, ts⟩
  rcases st with _ | tok
  · simp [reboot]
  · rcases vt with _ | vtok
    · simp [reboot]
    · rcases hsend : w.send with e | resp
      · refine ⟨by simp [reboot, hsend], by simp [reboot, hsend],
          by simp [reboot, hsend], Or.inl (by simp [reboot, hsend]),
          fun resp2 s2 _ _ hsend2 hhd2 => ?_⟩
        exact absurd hsend2 (by simp)
      · rcases resp with ⟨hdr, body⟩
        rcases hdr with _ | hv
        · refine ⟨by simp [reboot, rebootBody_frame, hsend], by simp [reboot, rebootBody_frame, hsend],
            by simp [reboot, rebootBody_frame, hsend],
            Or.inl (by simp [reboot, rebootBody_frame, hsend]),
            fun resp2 s2 _ _ hsend2 hhd2 => ?_⟩
          injection hsend2 with hr
          rw [← hr] at hhd2
          simp at hhd2
        · rcases hv with u | s
          · refine ⟨by simp [reboot, hsend], by simp [reboot, hsend],
              by simp [reboot, hsend], Or.inl (by simp [reboot, hsend]),
              fun resp2 s2 _ _ hsend2 hhd2 => ?_⟩
            injection hsend2 with hr
            rw [← hr] at hhd2
            simp at hhd2
          · refine ⟨by simp [reboot, rebootBody_frame, hsend], by simp [reboot, rebootBody_frame, hsend],
              by simp [reboot, rebootBody_frame, hsend],
              Or.inr ⟨⟨some (.ok s), body⟩, s, rfl, rfl,
                by simp [reboot, rebootBody_frame, hsend]⟩,
              fun resp2 s2 _ _ hsend2 hhd2 => ?_⟩
            injection hsend2 with hr
            rw [← hr] at hhd2
            simp at hhd2
            simp [reboot, rebootBody_frame, hsend, hhd2]

/-- Witness for C10: on the failure-body run with a rolled-token header,
the stored verification token still updates to `T2` while host, timeout
and session token are unchanged. -/
theorem c10_reboot_frame_witness :
    (reboot modemEx ⟨.ok
        { verificationTokenHeader := some (.ok "T2".toList),
          body := .ok "<response>ERROR</response>".toList }⟩).2.1.verificationToken =
      some "T2".toList ∧
    (reboot modemEx ⟨.ok
        { verificationTokenHeader := some (.ok "T2".toList),
          body := .ok "<response>ERROR</response>".toList }⟩).2.1.sessionToken =
      modemEx.sessionToken :=
  ⟨(c10_reboot_frame modemEx _).2.2.2.2 _ "T2".toList (by decide) (by decide) rfl rfl,
    (c10_reboot_frame modemEx _).2.2.1⟩

/-- C8 counterexample: the exponent field `ABCD` is valid base64 (decoding
to `[0x00, 0x10, 0x83]`), yet the code returns its hex decoding
`[0xAB, 0xCD]` — so the exponent is *not* decoded base64-first as the
claim states. -/
theorem c8_counterexample :
    decodeExponent "ABCD".toList = some [171, 205] ∧
      b64decode "ABCD".toList = some [0, 16, 131] := by
  decide

/-- C8 (amended): the modulus field is decoded base64-first with hex as
the fallback, while the exponent field is decoded hex-first with base64 as
the fallback. -/
theorem c8_decode_order (s : List Char) :
    (∀ bs, b64decode s = some bs → decodeModulus s = some bs) ∧
    (b64decode s = none → decodeModulus s = hexDecode s) ∧
    (∀ bs, hexDecode s = some bs → decodeExponent s = some bs) ∧
    (hexDecode s = none → decodeExponent s = b64decode s) := by
  refine ⟨fun bs h => ?_, fun h => ?_, fun bs h => ?_, fun h => ?_⟩ <;>
    first
    | (unfold decodeModulus; rw [h])
    | (unfold decodeExponent; rw [h])

/-- Witness for C8's amended theorem: base64-or-hex `ABCD` and
pure-base64 `+A==`. -/
theorem c8_decode_order_witness :
    decodeModulus "ABCD".toList = some [0, 16, 131] ∧
      decodeExponent "+A==".toList = b64decode "+A==".toList := by
  constructor
  · exact (c8_decode_order "ABCD".toList).1 [0, 16, 131] (by decide)
  · exact (c8_decode_order "+A==".toList).2.2.2 (by decide)

/-! ### `device.rs` / `api.rs`: interface enumeration and the devices
endpoint -/

/-- ASCII whitespace (the characters appearing in `/proc/net/route`;
models `char::is_whitespace` on this input). -/
def isWs (c : Char) : Bool :=
  c = ' ' ∨ c = '\t' ∨ c = '\n' ∨ c = '\r'

/-- Accumulator pass for `split_whitespace`. -/
def splitWsAux : List Char → List Char → List (List Char)
  | [], cur => if cur.isEmpty then [] else [cur.reverse]
  | c :: rest, cur =>
    if isWs c then
      if cur.isEmpty then splitWsAux rest []
      else cur.reverse :: splitWsAux rest []
    else splitWsAux rest (c :: cur)

/-- Model of Rust `str::split_whitespace` (non-empty words). -/
def splitWs (s : List Char) : List (List Char) :=
  splitWsAux s []

/-- The scan of `get_default_interface`: first line whose second
whitespace column is `"00000000"`; return its first column. -/
def getDefaultIfaceAux : List (List Char) → Except Unit (List Char)
  | [] => .error ()
  | line :: rest =>
    let cols := splitWs line
    if cols.get? 1 = some "00000000".toList then .ok (cols.headD [])
    else getDefaultIfaceAux rest

/-- `device.rs` `get_default_interface`: read `/proc/net/route` (given
here as its list of lines), skip the header line, and return the first
interface whose `Destination` column is `00000000` (0.0.0.0); error if no
such line exists. -/
def get_default_interface (routeLines : List (List Char)) : Except Unit (List Char) :=
  getDefaultIfaceAux (routeLines.drop 1)

/-- One record of `get_if_addrs()`: an interface name with the rendered IP
of the address record. -/
structure IfAddr where
  name : List Char
  ip : List Char
deriving DecidableEq, Repr

/-- `device.rs` `Device`: `{id, name, ip}` (the id serialized as the UUID;
modelled as its 16 bytes). -/
structure Device where
  id : List Nat
  name : List Char
  ip : List Char
deriving DecidableEq, Repr

/-! SHA-1 (for name-based UUIDv5, as `Uuid::new_v5` computes). -/

/-- 32-bit left rotation. -/
def rotl32 (n x : Nat) : Nat :=
  ((x <<< n) ||| (x >>> (32 - n))) % 4294967296

/-- `k` bytes of `n`, big-endian. -/
def toBytesBE (k n : Nat) : List Nat :=
  (List.range k).map (fun i => n / 2 ^ (8 * (k - 1 - i)) % 256)

/-- SHA-1 round constants. -/
def sha1K (i : Nat) : Nat :=
  if i < 20 then 0x5A827999
  else if i < 40 then 0x6ED9EBA1
  else if i < 60 then 0x8F1BBCDC
  else 0xCA62C1D6

/-- SHA-1 round functions. -/
def sha1F (i b c d : Nat) : Nat :=
  if i < 20 then (b &&& c) ||| ((b ^^^ 0xFFFFFFFF) &&& d)
  else if i < 40 then b ^^^ c ^^^ d
  else if i < 60 then (b &&& c) ||| (b &&& d) ||| (c &&& d)
  else b ^^^ c ^^^ d

/-- Merkle–Damgård padding: `0x80`, zeros to 56 mod 64, 64-bit bit length. -/
def sha1Pad (msg : List Nat) : List Nat :=
  msg ++ [0x80] ++ List.replicate ((119 - msg.length % 64) % 64) 0 ++
    toBytesBE 8 (msg.length * 8)

/-- Big-endian 32-bit words of a byte list. -/
def bytesToWords : List Nat → List Nat
  | b1 :: b2 :: b3 :: b4 :: rest =>
    (((b1 * 256 + b2) * 256 + b3) * 256 + b4) :: bytesToWords rest
  | _ => []

/-- Split into 64-byte blocks (fuel-structured for kernel evaluation). -/
def chunk64Aux : Nat → List Nat → List (List Nat)
  | 0, _ => []
  | _, [] => []
  | fuel + 1, l => l.take 64 :: chunk64Aux fuel (l.drop 64)

/-- 64-byte blocks of a byte list. -/
def chunk64 (l : List Nat) : List (List Nat) :=
  chunk64Aux l.length l

/-- Extend 16 schedule words to 80. -/
def sha1Extend (ws : List Nat) : List Nat :=
  (List.range 64).foldl
    (fun acc _ =>
      let n := acc.length
      acc ++ [rotl32 1 ((acc.getD (n - 3) 0) ^^^ (acc.getD (n - 8) 0) ^^^
        (acc.getD (n - 14) 0) ^^^ (acc.getD (n - 16) 0))])
    ws

/-- One SHA-1 block compression. -/
def sha1Compress (h : Nat × Nat × Nat × Nat × Nat) (block : List Nat) :
    Nat × Nat × Nat × Nat × Nat :=
  let w := sha1Extend (bytesToWords block)
  let r := (List.range 80).foldl
    (fun (st : Nat × Nat × Nat × Nat × Nat) i =>
      let temp := (rotl32 5 st.1 + sha1F i st.2.1 st.2.2.1 st.2.2.2.1 +
        st.2.2.2.2 + sha1K i + w.getD i 0) % 4294967296
      (temp, st.1, rotl32 30 st.2.1, st.2.2.1, st.2.2.2.1))
    h
  ((h.1 + r.1) % 4294967296, (h.2.1 + r.2.1) % 4294967296,
    (h.2.2.1 + r.2.2.1) % 4294967296, (h.2.2.2.1 + r.2.2.2.1) % 4294967296,
    (h.2.2.2.2 + r.2.2.2.2) % 4294967296)

/-- SHA-1 digest (20 bytes) of a byte list. -/
def sha1 (msg : List Nat) : List Nat :=
  let h := (chunk64 (sha1Pad msg)).foldl sha1Compress
    (0x67452301, 0xEFCDAB89, 0x98BADCFE, 0x10325476, 0xC3D2E1F0)
  toBytesBE 4 h.1 ++ toBytesBE 4 h.2.1 ++ toBytesBE 4 h.2.2.1 ++
    toBytesBE 4 h.2.2.2.1 ++ toBytesBE 4 h.2.2.2.2

/-- The bytes of `Uuid::NAMESPACE_URL`
(`6ba7b811-9dad-11d1-80b4-00c04fd430c8`). -/
def namespaceUrlBytes : List Nat :=
  [0x6b, 0xa7, 0xb8, 0x11, 0x9d, 0xad, 0x11, 0xd1,
   0x80, 0xb4, 0x00, 0xc0, 0x4f, 0xd4, 0x30, 0xc8]

/-- `Uuid::new_v5(&Uuid::NAMESPACE_URL, name.as_bytes())`: the first 16
bytes of `SHA-1(namespace ‖ name)`, with the version nibble of byte 6 set
to 5 and the variant bits of byte 8 set to `10` (names here are ASCII, so
their UTF-8 bytes are their char codes). -/
def uuidv5Url (name : List Char) : List Nat :=
  let h := (sha1 (namespaceUrlBytes ++ asciiBytes name)).take 16
  (List.range 16).map (fun i =>
    let b := h.getD i 0
    if i = 6 then b % 16 + 80
    else if i = 8 then b % 64 + 128
    else b)

/-- `api.rs` `handle_list_devices`: detect the default-route interface
(a 500 error if that fails), enumerate all interface addresses (a 500
error if that fails), keep only those whose name starts with `enx`, and
return them as `Device` records with `id = UUIDv5(URL, name)`.  (The
detected default interface is bound to `main` but never added to the
result; no `ppp`/`wwan` filter appears.) -/
def handle_list_devices (routeLines : List (List Char))
    (ifaddrs : Except Unit (List IfAddr)) : Except Unit (List Device) :=
  match get_default_interface routeLines with
  | .error _ => .error ()
  | .ok _main =>
    match ifaddrs with
    | .error _ => .error ()
    | .ok allIfs =>
      .ok ((allIfs.filter (fun i => startsWith i.name "enx".toList)).map
        (fun i => { id := uuidv5Url i.name, name := i.name, ip := i.ip }))

/-- A routing table whose default route is `eth0`. -/
def routeLinesEx : List (List Char) :=
  ["Iface\tDestination\tGateway".toList,
   "eth0\t00000000\t0102A8C0".toList,
   "wwan0\t0000A8C0\t00000000".toList]

/-- Host interfaces: the default-route `eth0`, a `wwan0`, a `ppp0` and one
`enx` device. -/
def ifaddrsEx : List IfAddr :=
  [⟨"eth0".toList, "10.0.0.2".toList⟩,
   ⟨"wwan0".toList, "10.64.0.3".toList⟩,
   ⟨"ppp0".toList, "10.64.0.4".toList⟩,
   ⟨"enxAABB".toList, "192.168.5.2".toList⟩]

/-- C7 counterexample: with `wwan0`, `ppp0` and the default-route
interface `eth0` all present, `handle_list_devices` returns only
`enxAABB` — the `ppp`/`wwan` interfaces and the default-route interface
are *not* included, contradicting the claimed membership. -/
theorem c7_counterexample :
    (handle_list_devices routeLinesEx (.ok ifaddrsEx)).map
        (fun ds => ds.map (fun d => d.name)) =
      .ok ["enxAABB".toList] ∧
    get_default_interface routeLinesEx = .ok "eth0".toList := by
  constructor
  · rfl
  · decide

/-- C7 (amended): `handle_list_devices` re-derives its answer from the
enumeration passed on each call; when a default-route interface exists
(its detection is only a precondition — on failure the endpoint errors),
the result is exactly the interfaces whose name starts with `enx`, in
order, as `{id, name, ip}` records with `id` the UUIDv5 (URL namespace) of
the device name; no `ppp`/`wwan` name and no default-route interface is
added. -/
theorem c7_devices_enx_only (routeLines : List (List Char))
    (ifaddrs : List IfAddr) (mainIf : List Char)
    (hdef : get_default_interface routeLines = .ok mainIf) :
    handle_list_devices routeLines (.ok ifaddrs) =
      .ok ((ifaddrs.filter (fun i => startsWith i.name "enx".toList)).map
        (fun i => { id := uuidv5Url i.name, name := i.name, ip := i.ip })) ∧
    ∀ ds, handle_list_devices routeLines (.ok ifaddrs) = .ok ds →
      ∀ d ∈ ds, startsWith d.name "enx".toList = true ∧ d.id = uuidv5Url d.name := by
  have heq : handle_list_devices routeLines (.ok ifaddrs) =
      .ok ((ifaddrs.filter (fun i => startsWith i.name "enx".toList)).map
        (fun i => { id := uuidv5Url i.name, name := i.name, ip := i.ip })) := by
    unfold handle_list_devices
    rw [hdef]
  refine ⟨heq, ?_⟩
  intro ds hds d hd
  rw [heq] at hds
  injection hds with hds
  rw [← hds] at hd
  rcases List.mem_map.1 hd with ⟨i, hi, hdev⟩
  have hflt := (List.mem_filter.1 hi).2
  constructor
  · rw [← hdev]
    exact hflt
  · rw [← hdev]

/-- Witness for C7's amended theorem at the example host state. -/
theorem c7_devices_enx_only_witness :
    handle_list_devices routeLinesEx (.ok ifaddrsEx) =
      .ok ((ifaddrsEx.filter (fun i => startsWith i.name "enx".toList)).map
        (fun i => { id := uuidv5Url i.name, name := i.name, ip := i.ip })) :=
  (c7_devices_enx_only routeLinesEx ifaddrsEx "eth0".toList (by decide)).1

end CellularProxy
